import Mathlib

/-!
# Verification of the mesos command-line client (`src/python/twitter/mesos/bin/mesos_client.py`)

A shallow embedding of the client's connection-routing, update-orchestration,
response-validation, session, status-reporting and quota logic, together with
proofs about the embedded definitions.

Conventions of the embedding:
* Python strings that the code inspects character-by-character (cluster
  descriptors, numeric arguments) are `List Char`; strings the code treats as
  opaque (job names, roles, log text) are `String`.
* Python exceptions and `sys.exit` are explicit: fallible routines return
  `Except PyError _`, and command handlers produce event traces in which an
  `exitProc`/`pyExc` event truncates everything that would follow it.
* Machinery the file only calls (the `clusters` registry, `TunnelHelper`,
  `Location`, thrift-generated types, the signing helper, the `Updater`) is
  modelled as explicit environment parameters or, where behaviour is fixed by
  the spec, as definitions whose doc comment says `Modelled from the spec:`.
* Log statements are modelled as events where a claim depends on them and
  omitted (with a note) where none does.
-/

set_option autoImplicit false

namespace MesosClient

/-! ## Python-level primitives -/

/-- Error kinds for exceptional Python control flow that reaches this layer. -/
inductive PyError where
  | assertionError
  | valueError
  | nameError
  | attributeError
  | fatalDie
  deriving DecidableEq, Repr

/-- Log levels used by `twitter.common.log`. -/
inductive LogLevel where
  | info
  | error
  | fatal
  deriving DecidableEq, Repr

/-- One emitted log line. -/
structure LogEvent where
  level : LogLevel
  msg : String
  deriving DecidableEq, Repr

/-- Python `str.split(sep)` on a single-character separator: splits at every
occurrence, keeping empty segments (`"a::b" -> ["a", "", "b"]`, `"" -> [""]`). -/
def pySplit (sep : Char) : List Char → List (List Char)
  | [] => [[]]
  | c :: rest =>
    match pySplit sep rest with
    | [] => [[]]
    | h :: t => if c = sep then [] :: h :: t else (c :: h) :: t

/-- Whether `s` begins with `pre` (models Python `s.find(pre) == 0`). -/
def listStartsWith : List Char → List Char → Bool
  | [], _ => true
  | _, [] => false
  | a :: pr, b :: s => a = b && listStartsWith pr s

/-- Characters Python `int()`/`float()` strip from both ends of a literal. -/
def isPyWs (c : Char) : Bool :=
  c = ' ' || c = '\t' || c = '\n' || c = '\r'

/-- Strip leading and trailing whitespace. -/
def stripWs (l : List Char) : List Char :=
  ((l.dropWhile isPyWs).reverse.dropWhile isPyWs).reverse

/-- Nonempty and all decimal digits. -/
def digitsOnly (l : List Char) : Bool :=
  !l.isEmpty && l.all Char.isDigit

/-- Numeric value of a digit string. -/
def natOfDigits (l : List Char) : Nat :=
  l.foldl (fun acc c => acc * 10 + (c.toNat - '0'.toNat)) 0

/-- Python `int(s)` on a string: optional surrounding whitespace, optional
sign, then one or more decimal digits; `none` models a raised `ValueError`. -/
def pyInt (s : List Char) : Option Int :=
  match stripWs s with
  | [] => none
  | x :: r =>
    if x = '-' then (if digitsOnly r then some (-(natOfDigits r : Int)) else none)
    else if x = '+' then (if digitsOnly r then some ((natOfDigits r : Int)) else none)
    else if digitsOnly (x :: r) then some ((natOfDigits (x :: r) : Int)) else none

/-- Strip one leading sign character. -/
def stripSign : List Char → List Char
  | '-' :: r => r
  | '+' :: r => r
  | s => s

/-- Split at the first occurrence of a character satisfying `p`:
returns the part before it and, if found, the part after it. -/
def splitOncePred (p : Char → Bool) : List Char → List Char × Option (List Char)
  | [] => ([], none)
  | c :: r =>
    if p c then ([], some r)
    else
      match splitOncePred p r with
      | (a, b) => (c :: a, b)

/-- A valid `float()` mantissa: digits with at most one dot, not all empty
(`"5"`, `"5."`, `".5"`, `"1.25"`). -/
def mantissaOk (l : List Char) : Bool :=
  match splitOncePred (fun c => c = '.') l with
  | (a, none) => digitsOnly a
  | (a, some b) => (!a.isEmpty || !b.isEmpty) && a.all Char.isDigit && b.all Char.isDigit

/-- A valid `float()` exponent part: optional sign then digits. -/
def expPartOk (l : List Char) : Bool :=
  digitsOnly (stripSign l)

/-- Whether Python `float(s)` succeeds: optional whitespace and sign, then a
decimal mantissa with optional `e`/`E` exponent, or an `inf`/`infinity`/`nan`
spelling (case-insensitive). `float()`'s numeric value is never used by the
client (the parsed cpu figure is only marshalled back out), so the embedding
records parse success and carries the trimmed literal as the parsed value. -/
def pyFloatOk (s : List Char) : Bool :=
  let t := stripWs s
  let u := stripSign t
  (match splitOncePred (fun c => c = 'e' || c = 'E') u with
   | (m, none) => mantissaOk m
   | (m, some e) => mantissaOk m && expPartOk e)
  || u.map Char.toLower = "inf".data
  || u.map Char.toLower = "infinity".data
  || u.map Char.toLower = "nan".data

/-- Python `float(s)` as used here: `none` models a raised `ValueError`,
`some` carries the trimmed literal (see `pyFloatOk`). -/
def pyFloat (s : List Char) : Option (List Char) :=
  if pyFloatOk s then some (stripWs s) else none

/-- Python `sep in s` / `s.find(sep) > -1` for one character. -/
def containsChar (sep : Char) (l : List Char) : Bool :=
  l.any fun x => x = sep

/-- Python truthiness of an optional string (`None` and `""` are falsy). -/
def truthyOptStr (o : Option (List Char)) : Bool :=
  match o with
  | none => false
  | some s => !s.isEmpty

/-- Python `a or b` on optional strings: `a` if truthy, else `b`. -/
def pyOr (a b : Option (List Char)) : Option (List Char) :=
  if truthyOptStr a then a else b

/-! ## Cluster validation and selection (`MesosCLIHelper`) -/

/-- The set of cluster names known to the `clusters` module. -/
structure Registry where
  known : List (List Char)
  deriving Repr

/-- Modelled from the spec: `clusters.assert_exists` (the `clusters` module is
not under `src/`) fails fatally when the given name is not in the known
cluster registry, and succeeds otherwise. -/
def clusters_assert_exists (reg : Registry) (name : List Char) : Except PyError Unit :=
  if name ∈ reg.known then .ok () else .error .assertionError

/-- Embeds `MesosCLIHelper.assert_valid_cluster`: asserts the cluster string is
truthy; if it contains `':'`, checks the first segment against the registry
unless it is `localhost`, and requires a numeric second segment only when the
split has exactly two segments; otherwise checks the whole name against the
registry. `_die` on a malformed port is `fatalDie`. -/
def assert_valid_cluster (reg : Registry) (cluster : Option (List Char)) : Except PyError Unit :=
  if truthyOptStr cluster = false then .error .assertionError
  else
    let c := cluster.getD []
    if containsChar ':' c then
      let scluster := pySplit ':' c
      match (if scluster.getD 0 [] ≠ "localhost".data
             then clusters_assert_exists reg (scluster.getD 0 [])
             else .ok ()) with
      | .error e => .error e
      | .ok _ =>
        if scluster.length = 2 then
          match pyInt (scluster.getD 1 []) with
          | some _ => .ok ()
          | none => .error .fatalDie
        else .ok ()
    else clusters_assert_exists reg c

/-- The warning logged when command-line and configuration clusters differ. -/
def clusterMismatchWarning (cmd : List Char) : LogEvent :=
  { level := .error
    msg := "Warning: --cluster and the cluster in your configuration do not match. Using the cluster specified on the command line. (cluster = " ++ String.mk cmd ++ ")" }

/-- Embeds `MesosCLIHelper.get_cluster`: warns (at error level) when both sources
supply a cluster and they differ, selects the command-line value when truthy
(falling back to the configured one), then validates the selection. -/
def get_cluster (reg : Registry) (cmdLine cfg : Option (List Char)) :
    List LogEvent × Except PyError (List Char) :=
  let logs :=
    if truthyOptStr cfg && truthyOptStr cmdLine && cfg ≠ cmdLine
    then [clusterMismatchWarning (cmdLine.getD [])]
    else []
  let cluster := pyOr cmdLine cfg
  match assert_valid_cluster reg cluster with
  | .error e => (logs, .error e)
  | .ok _ => (logs, .ok (cluster.getD []))

/-! ## Connection routing (`MesosCLI.get_scheduler_client`) -/

/-- A constructed scheduler client: direct local, or discovery-based. -/
inductive SchedClient where
  | localClient (port : Int) (ssl : Bool)
  | zookeeperClient (cluster : List Char) (zkPort : Int) (forceNotunnel : Bool) (ssl : Bool)
  deriving DecidableEq, Repr

/-- External collaborators of the router: the locality probe (`Location`) and
the tunnel lookup (`TunnelHelper.get_tunnel_host`). -/
structure RouterEnv where
  isProd : Bool
  isCorp : Bool
  tunnelHost : List Char → Option (List Char)

/-- Embeds `MesosCLI.get_scheduler_client`: a `localhost:<port>` descriptor yields no
tunnel and a direct client at that port; otherwise an optional `:zkport`
suffix is split off (default 2181; a descriptor with two or more colons makes
the two-way unpacking raise `ValueError`), the tunnel host is looked up only
in corp locality and never for `angrybird-local`, and a discovery client is
built with `force_notunnel` set iff no tunnel host was found. Its two
`log.info` calls are not modelled (nothing observed here depends on them). -/
def get_scheduler_client (env : RouterEnv) (cluster : List Char) :
    Except PyError (Option (List Char) × SchedClient) :=
  if listStartsWith "localhost:".data cluster then
    match pyInt ((pySplit ':' cluster).getD 1 []) with
    | none => .error .valueError
    | some port => .ok (none, .localClient port true)
  else
    match (if containsChar ':' cluster then
             match pySplit ':' cluster with
             | [c, zp] =>
               match pyInt zp with
               | some z => Except.ok (c, z)
               | none => Except.error PyError.valueError
             | _ => Except.error PyError.valueError
           else Except.ok (cluster, (2181 : Int))) with
    | .error e => .error e
    | .ok (c, zkPort) =>
      let ssh_proxy_host : Option (List Char) :=
        if c = "angrybird-local".data then none
        else if env.isCorp then env.tunnelHost c else none
      let force_notunnel := ssh_proxy_host.isNone
      .ok (ssh_proxy_host, .zookeeperClient c zkPort force_notunnel true)

/-! ## The lazily-constructed scheduler session (`MesosCLI.__init__` fields,
`client`/`proxy`/`cluster` accessors and `_construct_scheduler`) -/

/-- Modelled from the spec: `scheduler_client.get_thrift_client` (the
`scheduler_client` module is not under `src/`) derives the RPC client handle
from a constructed scheduler client; the caller asserts it is non-`None`. -/
inductive ThriftClient where
  | fromScheduler (s : SchedClient)
  deriving DecidableEq, Repr

/-- The modelled `get_thrift_client` always yields a handle for a constructed scheduler. -/
def get_thrift_client (s : SchedClient) : ThriftClient :=
  .fromScheduler s

/-- Everything `_construct_scheduler` consults: the `--cluster` option, the
cluster from the loaded job configuration (if any), the registry and the
router's collaborators. Fixed for the lifetime of one command. -/
structure CLIEnv where
  optCluster : Option (List Char)
  configCluster : Option (List Char)
  registry : Registry
  router : RouterEnv

/-- The memoized fields of `MesosCLI`, all initialized to `None`, plus an
instrumentation counter recording how many times `_construct_scheduler` ran. -/
structure SessionState where
  cluster : Option (List Char)
  proxy : Option (List Char)
  scheduler : Option SchedClient
  client : Option ThriftClient
  resolveCount : Nat
  deriving DecidableEq, Repr

/-- The fresh `MesosCLI` state: every cached field is `None`. -/
def initState : SessionState :=
  { cluster := none, proxy := none, scheduler := none, client := none, resolveCount := 0 }

/-- The triple `_construct_scheduler` computes. -/
structure Resolved where
  cluster : List Char
  proxy : Option (List Char)
  scheduler : SchedClient
  client : ThriftClient
  deriving DecidableEq, Repr

/-- The cluster/proxy/scheduler/client resolution, as a pure function of the
environment: `get_cluster` then `get_scheduler_client` then the thrift
handle. Deterministic, so re-running it cannot change the outcome. -/
def resolveEnv (env : CLIEnv) : List LogEvent × Except PyError Resolved :=
  match get_cluster env.registry env.optCluster env.configCluster with
  | (logs, .error e) => (logs, .error e)
  | (logs, .ok c) =>
    match get_scheduler_client env.router c with
    | .error e => (logs, .error e)
    | .ok (proxy, sched) =>
      (logs, .ok { cluster := c, proxy := proxy, scheduler := sched
                   client := get_thrift_client sched })

/-- The session state holding a resolution result, with the given counter. -/
def cachedState (r : Resolved) (n : Nat) : SessionState :=
  { cluster := some r.cluster, proxy := r.proxy, scheduler := some r.scheduler
    client := some r.client, resolveCount := n }

/-- Embeds `MesosCLI._construct_scheduler`: resolves and overwrites all four cached
fields (fatal errors propagate; the two asserts cannot fire in the model
because resolution always yields a scheduler and a thrift handle). -/
def construct_scheduler (env : CLIEnv) (s : SessionState) :
    Except PyError SessionState :=
  match (resolveEnv env).2 with
  | .error e => .error e
  | .ok r => .ok (cachedState r (s.resolveCount + 1))

/-- The three memoizing accessors. -/
inductive Accessor where
  | client
  | proxy
  | cluster
  deriving DecidableEq, Repr

/-- One accessor call: each accessor re-runs `_construct_scheduler` whenever
its own cached field is Python-falsy (`if not self._client:` etc.; a cached
`None` proxy is falsy). -/
def accessOnce (env : CLIEnv) (s : SessionState) : Accessor → Except PyError SessionState
  | .client => if s.client.isSome then .ok s else construct_scheduler env s
  | .proxy => if truthyOptStr s.proxy then .ok s else construct_scheduler env s
  | .cluster => if truthyOptStr s.cluster then .ok s else construct_scheduler env s

/-- A sequence of accessor calls within one process invocation. -/
def runAccessors (env : CLIEnv) (s : SessionState) : List Accessor → Except PyError SessionState
  | [] => .ok s
  | a :: rest =>
    match accessOnce env s a with
    | .error e => .error e
    | .ok s' => runAccessors env s' rest

/-! ## Responses and `check_and_log_response` -/

/-- Modelled from the spec: the thrift-generated `ResponseCode` enum ("OK vs.
various failure kinds"); only `OK` is distinguished by the client. -/
inductive ResponseCode where
  | OK
  | ERROR
  | INVALID_REQUEST
  deriving DecidableEq, Repr

/-- Modelled from the spec: the generated `ResponseCode._VALUES_TO_NAMES`
table mapping each code to its symbolic name. -/
def codeName : ResponseCode → String
  | .OK => "OK"
  | .ERROR => "ERROR"
  | .INVALID_REQUEST => "INVALID_REQUEST"

/-- A scheduler response as seen by `check_and_log_response`. -/
structure Response where
  responseCode : ResponseCode
  message : String
  deriving DecidableEq, Repr

/-- Embeds `check_and_log_response`: logs the symbolic code and message at info
level, and returns `some 1` (for `sys.exit(1)`) iff the code is not `OK`. -/
def check_and_log_response (resp : Response) : List LogEvent × Option Nat :=
  ([{ level := .info
      msg := "Response from scheduler: " ++ codeName resp.responseCode ++
             " (message: " ++ resp.message ++ ")" }],
   if resp.responseCode = .OK then none else some 1)

/-! ## Task records (`do_status` display) -/

/-- Modelled from the spec: the thrift `ScheduleStatus` enum; the client names
`PENDING`, `STARTING`, `RUNNING` explicitly and treats the rest uniformly. -/
inductive ScheduleStatus where
  | PENDING
  | ASSIGNED
  | STARTING
  | RUNNING
  | FINISHED
  | FAILED
  | KILLED
  | LOST
  deriving DecidableEq, Repr

/-- Symbolic names from `ScheduleStatus._VALUES_TO_NAMES`. -/
def statusName : ScheduleStatus → String
  | .PENDING => "PENDING"
  | .ASSIGNED => "ASSIGNED"
  | .STARTING => "STARTING"
  | .RUNNING => "RUNNING"
  | .FINISHED => "FINISHED"
  | .FAILED => "FAILED"
  | .KILLED => "KILLED"
  | .LOST => "LOST"

/-- The task-template fields `print_task` reads. -/
structure TaskInfo where
  shardId : Nat
  hdfsPath : String
  numCpus : Nat
  ramMb : Nat
  diskMb : Nat
  maxTaskFailures : Nat
  deriving DecidableEq, Repr, Inhabited

/-- An assigned task: the template is optional in thrift (`if taskInfo:`
guards part of `print_task`). -/
structure AssignedTask where
  task : Option TaskInfo
  slaveHost : String
  assignedPorts : List Nat
  deriving DecidableEq, Repr

/-- A scheduled task as returned by `getTasksStatus`. -/
structure ScheduledTask where
  assignedTask : AssignedTask
  status : ScheduleStatus
  failureCount : Nat
  deriving DecidableEq, Repr

/-- Embeds `ACTIVE_STATES` from `do_status`. -/
def ACTIVE_STATES : List ScheduleStatus :=
  [.PENDING, .STARTING, .RUNNING]

/-- Embeds `is_active` from `do_status`. -/
def taskIsActive (t : ScheduledTask) : Bool :=
  ACTIVE_STATES.contains t.status

/-! ## Command traces

Each `do_*` handler is embedded as a function from its inputs and an
environment of oracle responses to the list of observable events it performs,
in order. `exitProc` (from `sys.exit`) and `pyExc` (an uncaught exception)
truncate everything that would have followed. The side effects of lazy
session construction (`self.client()` etc.) are covered by the
`SessionState` model above and are not repeated inside these traces. -/

/-- jobs are owned by a role (`job.owner.role`). -/
structure Identity where
  role : String
  deriving DecidableEq, Repr

/-- The parsed job configuration fields the handlers read. -/
structure Job where
  name : String
  owner : Identity
  deriving DecidableEq, Repr

/-- thrift `UpdateResult` passed to `finishUpdate`. -/
inductive UpdateResult where
  | SUCCESS
  | FAILED
  | TERMINATE
  deriving DecidableEq, Repr

/-- A quota record as marshalled by the client; the cpu figure is the parsed
float literal (see `pyFloat`). -/
structure Quota where
  numCpus : List Char
  ramMb : Int
  diskMb : Int
  deriving DecidableEq, Repr

/-- An observable step of a command handler. -/
inductive Event where
  | logged (lvl : LogLevel) (msg : String)
  | mintCredential (id : Nat)
  | rpcCreateJob (job : String) (cred : Nat)
  | rpcKillTasks (role job : String) (cred : Nat)
  | rpcGetTasksStatus (role job : String)
  | rpcStartUpdate (job : String) (cred : Nat)
  | updaterUpdate (job : String) (token : Option String) (cred : Nat)
  | rpcFinishUpdate (role job : String) (result : UpdateResult) (token : Option String) (cred : Nat)
  | rpcGetQuota (role : String)
  | rpcSetQuota (role : String) (quota : Quota) (cred : Nat)
  | copyAppToHadoop (src : String)
  | checkAndLog (code : ResponseCode)
  | exitProc (code : Nat)
  | pyExc (e : PyError)
  deriving DecidableEq, Repr

/-- Events after which nothing further executes. -/
def isHalt : Event → Bool
  | .exitProc _ => true
  | .pyExc _ => true
  | _ => false

/-- Sequencing of trace fragments: `b` runs only if `a` did not halt. -/
def seqEv (a b : List Event) : List Event :=
  if a.any isHalt then a else a ++ b

/-- An invocation of `check_and_log_response` inside a handler: the
`checkAndLog` marker records the validated code (the validator's own
info-level logging is specified by `check_and_log_response` above), and a
non-`OK` code raises `sys.exit(1)`. -/
def checkEvents (code : ResponseCode) : List Event :=
  Event.checkAndLog code :: (if code = .OK then [] else [Event.exitProc 1])

/-- The command-line options the handlers read. -/
structure Options where
  copy_app_from : Option String
  deriving DecidableEq, Repr

/-- The `--copy_app_from` staging step at the top of `do_create`/`do_update`. -/
def copyEvents (opts : Options) : List Event :=
  match opts.copy_app_from with
  | some src => [Event.copyAppToHadoop src]
  | none => []

/-- Embeds `MesosCLIHelper.acquire_session_key_or_die` via `MesosCLI.acquire_session`:
builds a `SessionKey` for the current user and signs it through
`SessionKeyHelper.sign_session`. In traces a mint event records each signing;
a handler calls it at most once, so its credential id is `0`. -/
def acquireSessionEvent : Event :=
  Event.mintCredential 0

/-- Oracle for a handler that issues one validated RPC. -/
structure SimpleEnv where
  resp : Response
  deriving DecidableEq, Repr

/-- Embeds `do_create`: optional artifact staging, a fresh credential, one
`createJob` RPC with it, validation. -/
def do_create (opts : Options) (env : SimpleEnv) (job : Job) : List Event :=
  seqEv (copyEvents opts) <|
  seqEv [acquireSessionEvent] <|
  seqEv [Event.logged .info ("Creating job " ++ job.name),
         Event.rpcCreateJob job.name 0] <|
  checkEvents env.resp.responseCode

/-- Embeds `do_kill`: a log line, a fresh credential (evaluated as the second
argument of the `killTasks` call), the RPC, validation. -/
def do_kill (env : SimpleEnv) (role job : String) : List Event :=
  seqEv [Event.logged .info "Killing tasks"] <|
  seqEv [acquireSessionEvent, Event.rpcKillTasks role job 0] <|
  checkEvents env.resp.responseCode

/-- Embeds `do_cancel_update`: finishes with `TERMINATE` and a `None` token, with a
fresh credential and no prior `startUpdate`. -/
def do_cancel_update (env : SimpleEnv) (role job : String) : List Event :=
  seqEv [Event.logged .info ("Canceling update on job " ++ job)] <|
  seqEv [acquireSessionEvent,
         Event.rpcFinishUpdate role job .TERMINATE none 0] <|
  checkEvents env.resp.responseCode

/-! ### `do_status` -/

/-- The `getTasksStatus` response. -/
structure TasksResponse where
  responseCode : ResponseCode
  message : String
  tasks : List ScheduledTask
  deriving DecidableEq, Repr

/-- Oracle for `do_status`. -/
structure StatusEnv where
  resp : TasksResponse
  deriving DecidableEq, Repr

/-- The string `print_task` builds for a task whose template is present:
resource shape, optional ports line, failure count vs. max. -/
def taskString (t : ScheduledTask) (ti : TaskInfo) : String :=
  let base := "HDFS path: " ++ ti.hdfsPath ++ " cpus: " ++ toString ti.numCpus ++
              ", ram: " ++ toString ti.ramMb ++ " MB, disk: " ++ toString ti.diskMb ++ " MB"
  let withPorts :=
    if t.assignedTask.assignedPorts.isEmpty then base
    else base ++ " ports: " ++ toString t.assignedTask.assignedPorts
  withPorts ++ " failure count: " ++ toString t.failureCount ++
    " (max " ++ toString ti.maxTaskFailures ++ ")"

/-- The `log.info` line emitted per task inside `print_tasks`. -/
def taskEvent (t : ScheduledTask) (ti : TaskInfo) : Event :=
  Event.logged .info ("shard: " ++ toString ti.shardId ++ ", status: " ++
    statusName t.status ++ " on " ++ t.assignedTask.slaveHost ++ " " ++ taskString t ti)

/-- Embeds `print_tasks`: logs one line per task, in order. `print_task` reads
`taskInfo.maxTaskFailures` outside its `if taskInfo:` guard, so a task with
no template raises `AttributeError` and ends the trace. -/
def printTasksEvents : List ScheduledTask → List Event
  | [] => []
  | t :: ts =>
    match t.assignedTask.task with
    | none => [Event.pyExc .attributeError]
    | some ti => taskEvent t ti :: printTasksEvents ts

/-- The display half of `do_status`: an empty task list logs the explicit
no-tasks message; otherwise the active block (header with count, then the
active tasks in order) precedes the inactive block. -/
def statusDisplayEvents (tasks : List ScheduledTask) : List Event :=
  if tasks.isEmpty then [Event.logged .info "No tasks found."]
  else
    let active := tasks.filter taskIsActive
    let inactive := tasks.filter fun t => !taskIsActive t
    seqEv (Event.logged .info ("Active Tasks (" ++ toString active.length ++ ")") ::
           printTasksEvents active)
          (Event.logged .info ("Inactive Tasks (" ++ toString inactive.length ++ ")") ::
           printTasksEvents inactive)

/-- Embeds `do_status`: logs, queries `getTasksStatus` (with no credential —
the call takes only the query), validates, then renders. -/
def do_status (env : StatusEnv) (role job : String) : List Event :=
  seqEv [Event.logged .info "Fetching tasks status",
         Event.rpcGetTasksStatus role job] <|
  seqEv (checkEvents env.resp.responseCode) <|
  statusDisplayEvents env.resp.tasks

/-! ### `do_update` -/

/-- The `startUpdate` response: code, message and the update token. -/
structure StartUpdateResponse where
  responseCode : ResponseCode
  message : String
  updateToken : Option String
  deriving DecidableEq, Repr

/-- Oracle for `do_update`: the start response, the failed-shard set the
external `Updater.update` capability returns, and the finish response. -/
structure UpdateEnv where
  startResp : StartUpdateResponse
  failedShards : List Nat
  finishResp : Response
  deriving DecidableEq, Repr

/-- Embeds `do_update`: optional staging, one fresh credential, `startUpdate`
validated, then the `Updater` capability (constructed with the client, clock,
the start response's token and the same credential) runs once; the returned
failed-shard set picks `FAILED`/`SUCCESS`, and `finishUpdate` is issued with
the very token from the start response and the same credential, validated. -/
def do_update (opts : Options) (env : UpdateEnv) (job : Job) : List Event :=
  seqEv (copyEvents opts) <|
  seqEv [acquireSessionEvent] <|
  seqEv [Event.logged .info ("Updating job " ++ job.name),
         Event.rpcStartUpdate job.name 0] <|
  seqEv (checkEvents env.startResp.responseCode) <|
  seqEv [Event.updaterUpdate job.name env.startResp.updateToken 0] <|
  seqEv [Event.logged .info (if env.failedShards.isEmpty then "Update Successful"
                             else "Update reverted, failures detected on shards")] <|
  seqEv [Event.rpcFinishUpdate job.owner.role job.name
           (if env.failedShards.isEmpty then .SUCCESS else .FAILED)
           env.startResp.updateToken 0] <|
  checkEvents env.finishResp.responseCode

/-! ### quota commands -/

/-- The `getQuota` response quota record (thrift, all numeric fields). -/
structure QuotaRecord where
  numCpus : Nat
  ramMb : Nat
  diskMb : Nat
  deriving DecidableEq, Repr

/-- The `getQuota` response. -/
structure QuotaResponse where
  responseCode : ResponseCode
  message : String
  quota : QuotaRecord
  deriving DecidableEq, Repr

/-- Oracle for `do_get_quota`. -/
structure GetQuotaEnv where
  resp : QuotaResponse
  deriving DecidableEq, Repr

/-- The quota summary `do_get_quota` logs; the source renders RAM and disk as
`float(mb)/1024` GB — the floating-point rendering is abstracted to the raw
MB figures, which no claim inspects. -/
def quotaDisplay (role : String) (q : QuotaRecord) : String :=
  "Quota for " ++ role ++ ": CPU " ++ toString q.numCpus ++
  " RAM " ++ toString q.ramMb ++ " MB Disk " ++ toString q.diskMb ++ " MB"

/-- Embeds `do_get_quota`: issues `getQuota(role)` with no credential, then logs the
quota record directly — the response is never passed to
`check_and_log_response`. -/
def do_get_quota (env : GetQuotaEnv) (role : String) : List Event :=
  [Event.rpcGetQuota role,
   Event.logged .info (quotaDisplay role env.resp.quota)]

/-- Oracle for `do_set_quota`. -/
structure SetQuotaEnv where
  resp : Response
  deriving DecidableEq, Repr

/-- Embeds `do_set_quota`: parses cpu as a float and ram/disk as ints inside a
`try` whose `except ValueError` only logs `'Invalid value'` and falls
through; on any parse failure the subsequent `Quota(cpu, ram_mb, disk_mb)`
then reads an unbound local and raises `NameError` before the credential is
acquired or the RPC issued. On success: fresh credential, `setQuota` RPC,
validation. -/
def do_set_quota (env : SetQuotaEnv) (role : String)
    (cpu_str ram_mb_str disk_mb_str : List Char) : List Event :=
  match pyFloat cpu_str, pyInt ram_mb_str, pyInt disk_mb_str with
  | some cpu, some ram_mb, some disk_mb =>
    seqEv [acquireSessionEvent,
           Event.rpcSetQuota role { numCpus := cpu, ramMb := ram_mb, diskMb := disk_mb } 0] <|
    checkEvents env.resp.responseCode
  | _, _, _ =>
    [Event.logged .error "Invalid value", Event.pyExc .nameError]

/-! ## Event classifiers used by the theorems -/

/-- A signing of a fresh session credential. -/
def isMint : Event → Bool
  | .mintCredential _ => true
  | _ => false

/-- An invocation of the shard-update capability. -/
def isUpdaterUpdate : Event → Bool
  | .updaterUpdate _ _ _ => true
  | _ => false

/-- A `finishUpdate` RPC (any outcome, including `TERMINATE`). -/
def isRpcFinishUpdate : Event → Bool
  | .rpcFinishUpdate _ _ _ _ _ => true
  | _ => false

/-- A `finishUpdate` RPC with outcome `TERMINATE` (the cancel operation). -/
def isTerminateFinish : Event → Bool
  | .rpcFinishUpdate _ _ .TERMINATE _ _ => true
  | _ => false

/-- A `setQuota` RPC. -/
def isRpcSetQuota : Event → Bool
  | .rpcSetQuota _ _ _ => true
  | _ => false

/-- An invocation of the uniform response validator. -/
def isCheckAndLog : Event → Bool
  | .checkAndLog _ => true
  | _ => false

/-- A `sys.exit`. -/
def isExitProc : Event → Bool
  | .exitProc _ => true
  | _ => false

/-! ## Basic lemmas about the string primitives -/

theorem containsChar_eq_mem (c : Char) (m : List Char) :
    containsChar c m = true ↔ c ∈ m := by
  simp only [containsChar, List.any_eq_true, decide_eq_true_eq]
  exact ⟨fun ⟨x, hx, he⟩ => he ▸ hx, fun h => ⟨c, h, rfl⟩⟩

theorem pySplit_ne_nil (sep : Char) (l : List Char) : pySplit sep l ≠ [] := by
  cases l with
  | nil => simp [pySplit]
  | cons c r =>
    simp only [pySplit]
    cases h : pySplit sep r with
    | nil => simp
    | cons h t => by_cases hc : c = sep <;> simp [hc]

theorem pySplit_of_not_contains (sep : Char) (l : List Char)
    (h : containsChar sep l = false) : pySplit sep l = [l] := by
  induction l with
  | nil => rfl
  | cons c r ih =>
    simp only [containsChar, List.any_cons, Bool.or_eq_false_iff,
      decide_eq_false_iff_not] at h
    have ih' := ih (by simpa [containsChar] using h.2)
    simp only [pySplit]
    rw [ih']
    simp [h.1]

theorem pySplit_append_sep (sep : Char) (a b : List Char)
    (h : containsChar sep a = false) :
    pySplit sep (a ++ sep :: b) = a :: pySplit sep b := by
  induction a with
  | nil =>
    simp only [List.nil_append, pySplit]
    cases hb : pySplit sep b with
    | nil => exact absurd hb (pySplit_ne_nil sep b)
    | cons h t => simp
  | cons c a' ih =>
    simp only [containsChar, List.any_cons, Bool.or_eq_false_iff,
      decide_eq_false_iff_not] at h
    have ih' := ih (by simpa [containsChar] using h.2)
    simp only [List.cons_append, pySplit, List.append_eq]
    rw [ih']
    simp [h.1]

theorem listStartsWith_append (p r : List Char) :
    listStartsWith p (p ++ r) = true := by
  induction p with
  | nil => cases r <;> rfl
  | cons c p' ih => simp [listStartsWith, ih]

theorem listStartsWith_append_sep (sep : Char) (p s : List Char)
    (h : listStartsWith (p ++ [sep]) s = true) :
    ∃ rest, s = p ++ sep :: rest := by
  induction p generalizing s with
  | nil =>
    cases s with
    | nil => simp [listStartsWith] at h
    | cons c s' =>
      simp only [List.nil_append, listStartsWith, Bool.and_eq_true,
        decide_eq_true_eq] at h
      exact ⟨s', by simp [h.1]⟩
  | cons c p' ih =>
    cases s with
    | nil => simp [listStartsWith] at h
    | cons d s' =>
      simp only [List.cons_append, listStartsWith, Bool.and_eq_true,
        decide_eq_true_eq] at h
      obtain ⟨rest, hrest⟩ := ih s' h.2
      exact ⟨rest, by simp [h.1, hrest]⟩

theorem mem_dropWhile_of_mem {c : Char} {p : Char → Bool} (hc : p c = false) :
    ∀ m : List Char, c ∈ m → c ∈ m.dropWhile p := by
  intro m hm
  induction m with
  | nil => simp at hm
  | cons x xs ih =>
    rw [List.dropWhile_cons]
    by_cases hx : p x
    · simp only [hx, if_true]
      rcases List.mem_cons.mp hm with rfl | hm'
      · rw [hc] at hx; exact Bool.noConfusion hx
      · exact ih hm'
    · simp only [hx]
      simpa using hm

theorem containsChar_stripWs (c : Char) (l : List Char)
    (hc : isPyWs c = false) (h : containsChar c l = true) :
    containsChar c (stripWs l) = true := by
  rw [containsChar_eq_mem] at h ⊢
  unfold stripWs
  exact List.mem_reverse.mpr (mem_dropWhile_of_mem hc _
    (List.mem_reverse.mpr (mem_dropWhile_of_mem hc _ h)))

theorem digitsOnly_false_of_contains (c : Char) (l : List Char)
    (hc : c.isDigit = false) (h : containsChar c l = true) :
    digitsOnly l = false := by
  rw [containsChar_eq_mem] at h
  have hall : l.all Char.isDigit = false := by
    cases hall : l.all Char.isDigit with
    | false => rfl
    | true =>
      have := List.all_eq_true.mp hall c h
      rw [hc] at this
      exact Bool.noConfusion this
  simp [digitsOnly, hall]

theorem pyInt_none_of_contains_colon (s : List Char)
    (h : containsChar ':' s = true) : pyInt s = none := by
  have hws := containsChar_stripWs ':' s (by decide) h
  rw [containsChar_eq_mem] at hws
  cases hst : stripWs s with
  | nil => rw [hst] at hws; simp at hws
  | cons x r =>
    rw [hst] at hws
    by_cases hminus : x = '-'
    · have hr : ':' ∈ r := by
        rcases List.mem_cons.mp hws with h' | h'
        · exact absurd (h'.trans hminus) (by decide)
        · exact h'
      have hdr := digitsOnly_false_of_contains ':' r (by decide)
        ((containsChar_eq_mem ':' r).mpr hr)
      simp [pyInt, hst, hminus, hdr]
    · by_cases hplus : x = '+'
      · have hr : ':' ∈ r := by
          rcases List.mem_cons.mp hws with h' | h'
          · exact absurd (h'.trans hplus) (by decide)
          · exact h'
        have hdr := digitsOnly_false_of_contains ':' r (by decide)
          ((containsChar_eq_mem ':' r).mpr hr)
        simp [pyInt, hst, hminus, hplus, hdr]
      · have hd := digitsOnly_false_of_contains ':' (x :: r) (by decide)
          ((containsChar_eq_mem ':' (x :: r)).mpr hws)
        simp [pyInt, hst, hminus, hplus, hd]

theorem pyInt_some_no_colon (s : List Char) (p : Int) (h : pyInt s = some p) :
    containsChar ':' s = false := by
  cases hcc : containsChar ':' s with
  | false => rfl
  | true =>
    rw [pyInt_none_of_contains_colon s hcc] at h
    exact Option.noConfusion h

/-! ## Claim theorems -/

/-- C6: `check_and_log_response` emits exactly one log line, at info level,
whose text contains the symbolic name of the response code and the response
message; it exits iff the code is not `OK`, and any exit it requests carries
a non-zero status (namely `1`), so an `OK` response leaves the exit status
untouched by this call. -/
theorem response_validator_contract (resp : Response) :
    (check_and_log_response resp).1.length = 1 ∧
    ((check_and_log_response resp).1.headD { level := .fatal, msg := "" }).level = .info ∧
    (∃ pre mid post,
      ((check_and_log_response resp).1.headD { level := .fatal, msg := "" }).msg =
        pre ++ codeName resp.responseCode ++ mid ++ resp.message ++ post) ∧
    (resp.responseCode = .OK ↔ (check_and_log_response resp).2 = none) ∧
    ((check_and_log_response resp).2 = none ∨ (check_and_log_response resp).2 = some 1) := by
  refine ⟨rfl, rfl,
    ⟨"Response from scheduler: ", " (message: ", ")", by simp [check_and_log_response]⟩,
    ?_, ?_⟩ <;> by_cases h : resp.responseCode = .OK <;>
    simp [check_and_log_response, h]

/-- C7: a cluster descriptor of the form `localhost:<port>` (any string whose
remainder parses as an integer `p`) routes with no tunnel host and a direct
local scheduler client at port `p`, with no discovery client constructed,
for every locality and tunnel environment. -/
theorem localhost_cluster_routes_directly (env : RouterEnv) (s : List Char) (p : Int)
    (h : pyInt s = some p) :
    get_scheduler_client env ("localhost:".data ++ s) =
      .ok (none, .localClient p true) := by
  have hnc : containsChar ':' s = false := pyInt_some_no_colon s p h
  have hsw : listStartsWith "localhost:".data ("localhost:".data ++ s) = true :=
    listStartsWith_append _ _
  have hdata : "localhost:".data = "localhost".data ++ [':'] := by decide
  have hsplit : pySplit ':' ("localhost:".data ++ s) = ["localhost".data, s] := by
    rw [hdata, List.append_assoc, List.singleton_append,
      pySplit_append_sep ':' "localhost".data s (by decide),
      pySplit_of_not_contains ':' s hnc]
  unfold get_scheduler_client
  rw [hsw, hsplit]
  simp [h]

/-- C7 witness: the concrete descriptor `localhost:1234` in a corp
environment with a tunnel available still routes directly to port 1234. -/
theorem localhost_cluster_routes_directly_witness :
    pyInt "1234".data = some 1234 ∧
    get_scheduler_client ⟨false, true, fun _ => some "nest1".data⟩
      ("localhost:".data ++ "1234".data) =
      .ok (none, .localClient 1234 true) :=
  ⟨by decide, localhost_cluster_routes_directly _ "1234".data 1234 (by decide)⟩

/-- C2: whenever the cpu argument does not parse as a float, or the ram or
disk argument does not parse as an integer, `do_set_quota` logs a parse
error, raises before reaching the RPC, and issues no `setQuota` call (and
mints no credential). -/
theorem set_quota_parse_failure_no_rpc (env : SetQuotaEnv) (role : String)
    (c r d : List Char)
    (h : pyFloat c = none ∨ pyInt r = none ∨ pyInt d = none) :
    do_set_quota env role c r d =
      [Event.logged .error "Invalid value", Event.pyExc .nameError] ∧
    Event.logged .error "Invalid value" ∈ do_set_quota env role c r d ∧
    (do_set_quota env role c r d).countP isRpcSetQuota = 0 ∧
    (do_set_quota env role c r d).countP isMint = 0 := by
  have heq : do_set_quota env role c r d =
      [Event.logged .error "Invalid value", Event.pyExc .nameError] := by
    rcases h with h | h | h <;>
      cases hc : pyFloat c <;> cases hr : pyInt r <;> cases hd : pyInt d <;>
        simp_all [do_set_quota]
  refine ⟨heq, ?_, ?_, ?_⟩ <;> rw [heq] <;> decide

/-- C2 witness: the concrete invocation `set_quota eng abc 4096 10240`
(non-numeric cpu) logs the parse error and issues no RPC. -/
theorem set_quota_parse_failure_no_rpc_witness :
    (pyFloat "abc".data = none ∨ pyInt "4096".data = none ∨
      pyInt "10240".data = none) ∧
    (do_set_quota ⟨⟨.OK, ""⟩⟩ "eng" "abc".data "4096".data "10240".data =
       [Event.logged .error "Invalid value", Event.pyExc .nameError] ∧
     Event.logged .error "Invalid value" ∈
       do_set_quota ⟨⟨.OK, ""⟩⟩ "eng" "abc".data "4096".data "10240".data ∧
     (do_set_quota ⟨⟨.OK, ""⟩⟩ "eng" "abc".data "4096".data "10240".data).countP
       isRpcSetQuota = 0 ∧
     (do_set_quota ⟨⟨.OK, ""⟩⟩ "eng" "abc".data "4096".data "10240".data).countP
       isMint = 0) :=
  ⟨Or.inl (by decide),
   set_quota_parse_failure_no_rpc ⟨⟨.OK, ""⟩⟩ "eng" "abc".data "4096".data
     "10240".data (Or.inl (by decide))⟩

/-- C3 counterexample: a `getQuota` response whose code is not `OK` is not
passed through the response validator at all — `do_get_quota`'s trace has no
validator invocation and no exit; the quota record is used directly. This
refutes the claim that every `getQuota` call is validated. -/
theorem get_quota_not_validated_counterexample :
    (do_get_quota ⟨⟨.ERROR, "storage error", ⟨1, 1024, 2048⟩⟩⟩ "eng").countP
      isCheckAndLog = 0 ∧
    (do_get_quota ⟨⟨.ERROR, "storage error", ⟨1, 1024, 2048⟩⟩⟩ "eng").countP
      isExitProc = 0 := by
  decide

/-- C3 amended: `setQuota` responses go through the uniform response
validator exactly once, but `getQuota` responses are never validated — the
result is used directly and no exit can result from the response code. -/
theorem quota_validation_amended (genv : GetQuotaEnv) (role : String)
    (senv : SetQuotaEnv) (role2 : String) (c r d : List Char)
    (hc : ∃ x, pyFloat c = some x) (hr : ∃ x, pyInt r = some x)
    (hd : ∃ x, pyInt d = some x) :
    (do_get_quota genv role).countP isCheckAndLog = 0 ∧
    (do_get_quota genv role).countP isExitProc = 0 ∧
    (do_set_quota senv role2 c r d).countP isCheckAndLog = 1 := by
  obtain ⟨cv, hc⟩ := hc
  obtain ⟨rv, hr⟩ := hr
  obtain ⟨dv, hd⟩ := hd
  refine ⟨?_, ?_, ?_⟩
  · simp [do_get_quota, List.countP_cons, isCheckAndLog]
  · simp [do_get_quota, List.countP_cons, isExitProc]
  · by_cases hk : senv.resp.responseCode = .OK <;>
      simp [do_set_quota, hc, hr, hd, seqEv, checkEvents, isHalt, hk,
        acquireSessionEvent, isCheckAndLog, List.countP_cons, List.countP_append]

/-- C3 amended witness: concrete quota calls with an `OK` environment. -/
theorem quota_validation_amended_witness :
    ((∃ x, pyFloat "4.5".data = some x) ∧ (∃ x, pyInt "4096".data = some x) ∧
      (∃ x, pyInt "10240".data = some x)) ∧
    ((do_get_quota ⟨⟨.OK, "", ⟨1, 1024, 2048⟩⟩⟩ "eng").countP isCheckAndLog = 0 ∧
     (do_get_quota ⟨⟨.OK, "", ⟨1, 1024, 2048⟩⟩⟩ "eng").countP isExitProc = 0 ∧
     (do_set_quota ⟨⟨.OK, ""⟩⟩ "eng" "4.5".data "4096".data "10240".data).countP
       isCheckAndLog = 1) :=
  ⟨⟨⟨"4.5".data, by decide⟩, ⟨(4096 : Int), by decide⟩, ⟨(10240 : Int), by decide⟩⟩,
   quota_validation_amended ⟨⟨.OK, "", ⟨1, 1024, 2048⟩⟩⟩ "eng" ⟨⟨.OK, ""⟩⟩ "eng"
     "4.5".data "4096".data "10240".data
     ⟨"4.5".data, by decide⟩ ⟨(4096 : Int), by decide⟩ ⟨(10240 : Int), by decide⟩⟩

/-- C1: when `startUpdate` returns an `OK` response, the update saga invokes
the shard-update capability exactly once and then `finishUpdate` exactly
once — the filtered trace is precisely one `updaterUpdate` followed by one
`finishUpdate` carrying the very token from the start response, with outcome
`SUCCESS` iff the failed-shard set is empty and `FAILED` otherwise — and no
`TERMINATE` (cancel) call ever occurs in the same saga. -/
theorem update_saga_contract (opts : Options) (env : UpdateEnv) (job : Job)
    (h : env.startResp.responseCode = .OK) :
    (do_update opts env job).filter
        (fun e => isUpdaterUpdate e || isRpcFinishUpdate e) =
      [Event.updaterUpdate job.name env.startResp.updateToken 0,
       Event.rpcFinishUpdate job.owner.role job.name
         (if env.failedShards.isEmpty then .SUCCESS else .FAILED)
         env.startResp.updateToken 0] ∧
    (do_update opts env job).countP isUpdaterUpdate = 1 ∧
    (do_update opts env job).countP isRpcFinishUpdate = 1 ∧
    (do_update opts env job).countP isTerminateFinish = 0 := by
  rcases env with ⟨⟨sc, sm, tok⟩, fs, ⟨fc, fm⟩⟩
  simp only at h
  subst h
  rcases opts with ⟨copy⟩
  rcases copy with _ | src <;> rcases fs with _ | ⟨shard, fs'⟩ <;>
    rcases fc <;>
    simp [do_update, seqEv, checkEvents, copyEvents, acquireSessionEvent, isHalt,
      List.filter_append, List.countP_cons, List.countP_append,
      isUpdaterUpdate, isRpcFinishUpdate, isTerminateFinish]

/-- C1 witness: a concrete successful update run with a non-empty and an
empty failed-shard set is covered; here the empty one. -/
theorem update_saga_contract_witness :
    (⟨⟨.OK, "ok", some "token42"⟩, [], ⟨.OK, "ok"⟩⟩ : UpdateEnv).startResp.responseCode
      = .OK ∧
    ((do_update ⟨none⟩ ⟨⟨.OK, "ok", some "token42"⟩, [], ⟨.OK, "ok"⟩⟩
        ⟨"web", ⟨"mesos"⟩⟩).filter
        (fun e => isUpdaterUpdate e || isRpcFinishUpdate e) =
      [Event.updaterUpdate "web" (some "token42") 0,
       Event.rpcFinishUpdate "mesos" "web"
         (if ([] : List Nat).isEmpty then .SUCCESS else .FAILED) (some "token42") 0] ∧
     (do_update ⟨none⟩ ⟨⟨.OK, "ok", some "token42"⟩, [], ⟨.OK, "ok"⟩⟩
        ⟨"web", ⟨"mesos"⟩⟩).countP isUpdaterUpdate = 1 ∧
     (do_update ⟨none⟩ ⟨⟨.OK, "ok", some "token42"⟩, [], ⟨.OK, "ok"⟩⟩
        ⟨"web", ⟨"mesos"⟩⟩).countP isRpcFinishUpdate = 1 ∧
     (do_update ⟨none⟩ ⟨⟨.OK, "ok", some "token42"⟩, [], ⟨.OK, "ok"⟩⟩
        ⟨"web", ⟨"mesos"⟩⟩).countP isTerminateFinish = 0) :=
  ⟨rfl, update_saga_contract ⟨none⟩ ⟨⟨.OK, "ok", some "token42"⟩, [], ⟨.OK, "ok"⟩⟩
    ⟨"web", ⟨"mesos"⟩⟩ rfl⟩

/-! ### C9: the status report partition -/

/-- The per-task log event for a well-formed task (template present). -/
def taskEventTotal (t : ScheduledTask) : Event :=
  taskEvent t (t.assignedTask.task.getD default)

theorem printTasksEvents_eq_map (l : List ScheduledTask)
    (h : ∀ t ∈ l, t.assignedTask.task.isSome = true) :
    printTasksEvents l = l.map taskEventTotal := by
  induction l with
  | nil => rfl
  | cons t ts ih =>
    have ht := h t (List.mem_cons_self t ts)
    cases hτ : t.assignedTask.task with
    | none => rw [hτ] at ht; exact Bool.noConfusion ht
    | some ti =>
      simp [printTasksEvents, hτ, taskEventTotal,
        ih (fun x hx => h x (List.mem_cons_of_mem t hx))]

theorem map_taskEventTotal_no_halt (l : List ScheduledTask) :
    (l.map taskEventTotal).any isHalt = false := by
  induction l with
  | nil => rfl
  | cons t ts ih => simp [taskEventTotal, taskEvent, isHalt, ih]

theorem taskIsActive_iff (t : ScheduledTask) :
    taskIsActive t = true ↔
      (t.status = .PENDING ∨ t.status = .STARTING ∨ t.status = .RUNNING) := by
  rcases t with ⟨a, st, f⟩
  cases st <;> simp [taskIsActive, ACTIVE_STATES]

theorem filter_partition_length {α : Type} (p : α → Bool) (l : List α) :
    (l.filter p).length + (l.filter fun x => !p x).length = l.length := by
  induction l with
  | nil => rfl
  | cons x xs ih => by_cases hx : p x <;> simp [List.filter_cons, hx, ← ih] <;> omega

/-- What C9 asserts of the status display for a given task list: the empty
list logs only the explicit no-tasks message; otherwise the active block
(tasks whose status is PENDING, STARTING or RUNNING, as an order-preserving
subsequence of the input) is printed first, one line per task, then the
inactive block (all remaining tasks, order preserved), and the two blocks
partition the input. -/
def StatusReportSpec (tasks : List ScheduledTask) : Prop :=
  statusDisplayEvents tasks =
    (if tasks.isEmpty then [Event.logged .info "No tasks found."]
     else
       (Event.logged .info
           ("Active Tasks (" ++ toString (tasks.filter taskIsActive).length ++ ")") ::
         (tasks.filter taskIsActive).map taskEventTotal) ++
       (Event.logged .info
           ("Inactive Tasks (" ++
             toString (tasks.filter (fun t => !taskIsActive t)).length ++ ")") ::
         (tasks.filter (fun t => !taskIsActive t)).map taskEventTotal)) ∧
  (tasks.filter taskIsActive).Sublist tasks ∧
  (tasks.filter (fun t => !taskIsActive t)).Sublist tasks ∧
  (∀ t ∈ tasks.filter taskIsActive,
    t.status = .PENDING ∨ t.status = .STARTING ∨ t.status = .RUNNING) ∧
  (∀ t ∈ tasks.filter (fun t => !taskIsActive t),
    t.status ≠ .PENDING ∧ t.status ≠ .STARTING ∧ t.status ≠ .RUNNING) ∧
  (tasks.filter taskIsActive).length +
    (tasks.filter (fun t => !taskIsActive t)).length = tasks.length

/-- C9: for every task list whose records carry their template (as every
scheduler response does), the status report satisfies `StatusReportSpec`:
ACTIVE block first, INACTIVE block second, original order preserved within
each block, and an explicit no-tasks message for the empty list. -/
theorem status_report_partition (tasks : List ScheduledTask)
    (h : ∀ t ∈ tasks, t.assignedTask.task.isSome = true) :
    StatusReportSpec tasks := by
  refine ⟨?_, List.filter_sublist _, List.filter_sublist _, ?_, ?_, ?_⟩
  · by_cases hemp : tasks.isEmpty = true
    · simp [statusDisplayEvents, hemp]
    · have hact : ∀ t ∈ tasks.filter taskIsActive,
          t.assignedTask.task.isSome = true :=
        fun t ht => h t (List.mem_of_mem_filter ht)
      have hina : ∀ t ∈ tasks.filter (fun t => !taskIsActive t),
          t.assignedTask.task.isSome = true :=
        fun t ht => h t (List.mem_of_mem_filter ht)
      simp only [statusDisplayEvents, hemp, if_false]
      rw [printTasksEvents_eq_map _ hact, printTasksEvents_eq_map _ hina]
      simp [seqEv, isHalt, map_taskEventTotal_no_halt, hemp]
  · intro t ht
    exact (taskIsActive_iff t).mp (List.of_mem_filter ht)
  · intro t ht
    have hf : taskIsActive t = false := by
      simpa using List.of_mem_filter ht
    have hiff := taskIsActive_iff t
    rw [hf] at hiff
    simp only [Bool.false_eq_true, false_iff] at hiff
    push_neg at hiff
    exact hiff
  · exact filter_partition_length taskIsActive tasks

/-- The spec's example task list (statuses PENDING, RUNNING, FINISHED, LOST). -/
def sampleTasks : List ScheduledTask :=
  [⟨⟨some ⟨0, "/pkg/a", 1, 128, 256, 3⟩, "host1", [31337]⟩, .PENDING, 0⟩,
   ⟨⟨some ⟨1, "/pkg/a", 1, 128, 256, 3⟩, "host2", []⟩, .RUNNING, 1⟩,
   ⟨⟨some ⟨2, "/pkg/a", 1, 128, 256, 3⟩, "host3", [80]⟩, .FINISHED, 0⟩,
   ⟨⟨some ⟨3, "/pkg/a", 1, 128, 256, 3⟩, "host4", []⟩, .LOST, 2⟩]

/-- C9 witness: the concrete sample list satisfies the hypothesis and the
partition property. -/
theorem status_report_partition_witness :
    (∀ t ∈ sampleTasks, t.assignedTask.task.isSome = true) ∧
    StatusReportSpec sampleTasks :=
  ⟨by decide, status_report_partition sampleTasks (by decide)⟩

/-! ### C5: session credentials -/

theorem printTasksEvents_countP_isMint (l : List ScheduledTask) :
    (printTasksEvents l).countP isMint = 0 := by
  induction l with
  | nil => rfl
  | cons t ts ih =>
    cases hτ : t.assignedTask.task <;>
      simp [printTasksEvents, hτ, isMint, taskEvent, List.countP_cons, ih]

theorem countP_seqEv_zero (p : Event → Bool) (a b : List Event)
    (ha : a.countP p = 0) (hb : b.countP p = 0) :
    (seqEv a b).countP p = 0 := by
  unfold seqEv
  split
  · exact ha
  · simp [List.countP_append, ha, hb]

theorem statusDisplayEvents_countP_isMint (l : List ScheduledTask) :
    (statusDisplayEvents l).countP isMint = 0 := by
  by_cases h : l.isEmpty = true
  · simp [statusDisplayEvents, h, isMint, List.countP_cons]
  · simp only [statusDisplayEvents, h, if_false]
    apply countP_seqEv_zero <;>
      simp [List.countP_cons, isMint, printTasksEvents_countP_isMint]

/-- C5 counterexample: the claim says a credential is minted once per
logical operation *including* `status`, and never reused across calls to the
scheduler. In fact a concrete `status` run mints no credential at all, and a
concrete successful `update` run mints exactly one credential (id 0) and
passes that same credential to both its `startUpdate` and its `finishUpdate`
scheduler calls. -/
theorem credential_per_operation_counterexample :
    (do_status ⟨⟨.OK, "", []⟩⟩ "mesos" "web").countP isMint = 0 ∧
    (do_update ⟨none⟩ ⟨⟨.OK, "", some "tok"⟩, [], ⟨.OK, ""⟩⟩
      ⟨"web", ⟨"mesos"⟩⟩).countP isMint = 1 ∧
    Event.rpcStartUpdate "web" 0 ∈
      do_update ⟨none⟩ ⟨⟨.OK, "", some "tok"⟩, [], ⟨.OK, ""⟩⟩ ⟨"web", ⟨"mesos"⟩⟩ ∧
    Event.rpcFinishUpdate "mesos" "web" .SUCCESS (some "tok") 0 ∈
      do_update ⟨none⟩ ⟨⟨.OK, "", some "tok"⟩, [], ⟨.OK, ""⟩⟩ ⟨"web", ⟨"mesos"⟩⟩ := by
  decide

/-- C5 amended: a credential is minted freshly, exactly once, for each
mutating operation (`create`, `kill`, `cancel_update`, `update`, and
`set_quota` when its arguments parse); the read-only `status` and
`get_quota` operations mint none; and within one `update` the single
credential is shared by the `startUpdate` and `finishUpdate` calls rather
than being re-minted per scheduler call. Nothing is cached across
operations: each trace's credential is its own mint. -/
theorem credential_per_operation_amended
    (opts : Options) (cenv kenv cuenv : SimpleEnv) (uenv : UpdateEnv)
    (senv : StatusEnv) (gqenv : GetQuotaEnv) (sqenv : SetQuotaEnv)
    (job : Job) (role jobn : String) (c r d : List Char)
    (hc : ∃ x, pyFloat c = some x) (hr : ∃ x, pyInt r = some x)
    (hd : ∃ x, pyInt d = some x)
    (hstart : uenv.startResp.responseCode = .OK) :
    (do_create opts cenv job).countP isMint = 1 ∧
    (do_kill kenv role jobn).countP isMint = 1 ∧
    (do_cancel_update cuenv role jobn).countP isMint = 1 ∧
    (do_update opts uenv job).countP isMint = 1 ∧
    (do_set_quota sqenv role c r d).countP isMint = 1 ∧
    (do_status senv role jobn).countP isMint = 0 ∧
    (do_get_quota gqenv role).countP isMint = 0 ∧
    Event.rpcStartUpdate job.name 0 ∈ do_update opts uenv job ∧
    Event.rpcFinishUpdate job.owner.role job.name
      (if uenv.failedShards.isEmpty then .SUCCESS else .FAILED)
      uenv.startResp.updateToken 0 ∈ do_update opts uenv job := by
  obtain ⟨cv, hc⟩ := hc
  obtain ⟨rv, hr⟩ := hr
  obtain ⟨dv, hd⟩ := hd
  rcases opts with ⟨copy⟩
  refine ⟨?_, ?_, ?_, ?_, ?_, ?_, ?_, ?_, ?_⟩
  · rcases copy with _ | src <;>
      by_cases hk : cenv.resp.responseCode = .OK <;>
      simp [do_create, copyEvents, seqEv, isHalt, acquireSessionEvent,
        checkEvents, hk, isMint, List.countP_cons, List.countP_append]
  · by_cases hk : kenv.resp.responseCode = .OK <;>
      simp [do_kill, seqEv, isHalt, acquireSessionEvent, checkEvents, hk,
        isMint, List.countP_cons, List.countP_append]
  · by_cases hk : cuenv.resp.responseCode = .OK <;>
      simp [do_cancel_update, seqEv, isHalt, acquireSessionEvent, checkEvents,
        hk, isMint, List.countP_cons, List.countP_append]
  · rcases copy with _ | src <;>
      by_cases hk : uenv.finishResp.responseCode = .OK <;>
      simp [do_update, hstart, copyEvents, seqEv, isHalt, acquireSessionEvent,
        checkEvents, hk, isMint, List.countP_cons, List.countP_append]
  · by_cases hk : sqenv.resp.responseCode = .OK <;>
      simp [do_set_quota, hc, hr, hd, seqEv, isHalt, acquireSessionEvent,
        checkEvents, hk, isMint, List.countP_cons, List.countP_append]
  · by_cases hk : senv.resp.responseCode = .OK <;>
      simp [do_status, seqEv, isHalt, checkEvents, hk, isMint,
        List.countP_cons, List.countP_append, statusDisplayEvents_countP_isMint]
  · simp [do_get_quota, isMint, List.countP_cons]
  · rcases copy with _ | src <;>
      by_cases hk : uenv.finishResp.responseCode = .OK <;>
      simp [do_update, hstart, copyEvents, seqEv, isHalt, acquireSessionEvent,
        checkEvents, hk]
  · rcases copy with _ | src <;>
      by_cases hk : uenv.finishResp.responseCode = .OK <;>
      simp [do_update, hstart, copyEvents, seqEv, isHalt, acquireSessionEvent,
        checkEvents, hk]

/-- C5 amended witness: one concrete environment per operation. -/
theorem credential_per_operation_amended_witness :
    ((∃ x, pyFloat "4.5".data = some x) ∧ (∃ x, pyInt "4096".data = some x) ∧
     (∃ x, pyInt "10240".data = some x) ∧
     (⟨⟨.OK, "", some "tok"⟩, [], ⟨.OK, ""⟩⟩ : UpdateEnv).startResp.responseCode = .OK) ∧
    ((do_create ⟨none⟩ ⟨⟨.OK, ""⟩⟩ ⟨"web", ⟨"mesos"⟩⟩).countP isMint = 1 ∧
     (do_kill ⟨⟨.OK, ""⟩⟩ "mesos" "web").countP isMint = 1 ∧
     (do_cancel_update ⟨⟨.OK, ""⟩⟩ "mesos" "web").countP isMint = 1 ∧
     (do_update ⟨none⟩ ⟨⟨.OK, "", some "tok"⟩, [], ⟨.OK, ""⟩⟩
       ⟨"web", ⟨"mesos"⟩⟩).countP isMint = 1 ∧
     (do_set_quota ⟨⟨.OK, ""⟩⟩ "mesos" "4.5".data "4096".data "10240".data).countP
       isMint = 1 ∧
     (do_status ⟨⟨.OK, "", []⟩⟩ "mesos" "web").countP isMint = 0 ∧
     (do_get_quota ⟨⟨.OK, "", ⟨1, 1024, 2048⟩⟩⟩ "mesos").countP isMint = 0 ∧
     Event.rpcStartUpdate "web" 0 ∈
       do_update ⟨none⟩ ⟨⟨.OK, "", some "tok"⟩, [], ⟨.OK, ""⟩⟩ ⟨"web", ⟨"mesos"⟩⟩ ∧
     Event.rpcFinishUpdate "mesos" "web"
       (if ([] : List Nat).isEmpty then .SUCCESS else .FAILED) (some "tok") 0 ∈
       do_update ⟨none⟩ ⟨⟨.OK, "", some "tok"⟩, [], ⟨.OK, ""⟩⟩ ⟨"web", ⟨"mesos"⟩⟩) :=
  ⟨⟨⟨"4.5".data, by decide⟩, ⟨(4096 : Int), by decide⟩, ⟨(10240 : Int), by decide⟩, rfl⟩,
   credential_per_operation_amended ⟨none⟩ ⟨⟨.OK, ""⟩⟩ ⟨⟨.OK, ""⟩⟩ ⟨⟨.OK, ""⟩⟩
     ⟨⟨.OK, "", some "tok"⟩, [], ⟨.OK, ""⟩⟩ ⟨⟨.OK, "", []⟩⟩
     ⟨⟨.OK, "", ⟨1, 1024, 2048⟩⟩⟩ ⟨⟨.OK, ""⟩⟩ ⟨"web", ⟨"mesos"⟩⟩ "mesos" "web"
     "4.5".data "4096".data "10240".data
     ⟨"4.5".data, by decide⟩ ⟨(4096 : Int), by decide⟩ ⟨(10240 : Int), by decide⟩ rfl⟩

/-! ### C8: command line vs configuration cluster -/

/-- C8 counterexample: with a command-line cluster of `localhost:abc` and a
differing configuration cluster `smf1` (both non-empty), the mismatch
warning is emitted and the command-line value is selected, but resolution
then dies fatally on the malformed port — refuting "this situation is never
a fatal error". -/
theorem cluster_mismatch_counterexample :
    truthyOptStr (some "localhost:abc".data) = true ∧
    truthyOptStr (some "smf1".data) = true ∧
    ((some "localhost:abc".data : Option (List Char)) == some "smf1".data) = false ∧
    (get_cluster ⟨[]⟩ (some "localhost:abc".data) (some "smf1".data)).1 =
      [clusterMismatchWarning "localhost:abc".data] ∧
    (get_cluster ⟨[]⟩ (some "localhost:abc".data) (some "smf1".data)).2 =
      .error .fatalDie :=
  ⟨by decide, by decide, by decide, rfl, rfl⟩

/-- C8 amended: when both cluster sources are non-empty and differ, the
mismatch itself is only a warning and the command-line value is the one
selected; the call then succeeds with that value exactly when the
command-line value passes cluster validation, and is fatal only through
that validation (unknown name or malformed port), never through the
mismatch. -/
theorem cluster_mismatch_amended (reg : Registry) (cmd cfg : Option (List Char))
    (h1 : truthyOptStr cmd = true) (h2 : truthyOptStr cfg = true)
    (h3 : cfg ≠ cmd) :
    (get_cluster reg cmd cfg).1 = [clusterMismatchWarning (cmd.getD [])] ∧
    (get_cluster reg cmd cfg).2 =
      (assert_valid_cluster reg cmd).map (fun _ => cmd.getD []) := by
  cases hA : assert_valid_cluster reg cmd with
  | error e => simp [get_cluster, pyOr, h1, h2, h3, hA, Except.map]
  | ok u => simp [get_cluster, pyOr, h1, h2, h3, hA, Except.map]

/-- C8 amended witness: a registered command-line cluster differing from the
configured one resolves to the command-line value with only a warning. -/
theorem cluster_mismatch_amended_witness :
    (truthyOptStr (some "smf1".data) = true ∧
     truthyOptStr (some "sjc1".data) = true ∧
     (some "sjc1".data : Option (List Char)) ≠ some "smf1".data) ∧
    ((get_cluster ⟨["smf1".data]⟩ (some "smf1".data) (some "sjc1".data)).1 =
       [clusterMismatchWarning ((some "smf1".data : Option (List Char)).getD [])] ∧
     (get_cluster ⟨["smf1".data]⟩ (some "smf1".data) (some "sjc1".data)).2 =
       (assert_valid_cluster ⟨["smf1".data]⟩ (some "smf1".data)).map
         (fun _ => (some "smf1".data : Option (List Char)).getD [])) :=
  ⟨⟨by decide, by decide, by decide⟩,
   cluster_mismatch_amended ⟨["smf1".data]⟩ (some "smf1".data) (some "sjc1".data)
     (by decide) (by decide) (by decide)⟩

/-! ### C10: multi-colon cluster strings -/

/-- C10: any cluster string with two or more `':'` separators whose first
segment is a registered, non-`localhost` name passes `assert_valid_cluster`
(the numeric-port check fires only on exactly two segments), yet routing
that same string raises `ValueError` from the failed two-way unpacking —
for every locality/tunnel environment. -/
theorem multi_colon_cluster_accepted_but_unroutable (reg : Registry)
    (env : RouterEnv) (s : List Char)
    (h1 : 3 ≤ (pySplit ':' s).length)
    (h2 : (pySplit ':' s).getD 0 [] ∈ reg.known)
    (h3 : (pySplit ':' s).getD 0 [] ≠ "localhost".data) :
    assert_valid_cluster reg (some s) = .ok () ∧
    get_scheduler_client env s = .error .valueError := by
  have hcc : containsChar ':' s = true := by
    cases hcc : containsChar ':' s with
    | true => rfl
    | false =>
      rw [pySplit_of_not_contains ':' s hcc] at h1
      simp at h1
  have hs : truthyOptStr (some s) = true := by
    cases s with
    | nil => simp [containsChar] at hcc
    | cons x xs => simp [truthyOptStr]
  rcases hsp : pySplit ':' s with _ | ⟨a, _ | ⟨b, _ | ⟨c3, t⟩⟩⟩
  · exact absurd hsp (pySplit_ne_nil ':' s)
  · rw [hsp] at h1; simp at h1
  · rw [hsp] at h1; simp at h1
  · rw [hsp] at h2 h3
    simp only [List.getD_cons_zero] at h2 h3
    have hl2 : ¬((a :: b :: c3 :: t).length = 2) := by simp
    have hnsw : listStartsWith "localhost:".data s = false := by
      cases hsw : listStartsWith "localhost:".data s with
      | false => rfl
      | true =>
        rw [show "localhost:".data = "localhost".data ++ [':'] by decide] at hsw
        obtain ⟨rest, hrest⟩ := listStartsWith_append_sep ':' "localhost".data s hsw
        rw [hrest, pySplit_append_sep ':' "localhost".data rest (by decide)] at hsp
        injection hsp with ha _
        exact (h3 ha.symm).elim
    refine ⟨?_, ?_⟩
    · simp [assert_valid_cluster, hs, hcc, hsp, clusters_assert_exists, h2, h3, hl2]
    · simp [get_scheduler_client, hnsw, hcc, hsp]

/-- C10 witness: the concrete string `name:1234:extra` with `name`
registered is accepted by the validator and rejected by routing. -/
theorem multi_colon_cluster_witness :
    (3 ≤ (pySplit ':' "name:1234:extra".data).length ∧
     (pySplit ':' "name:1234:extra".data).getD 0 [] ∈
       (⟨["name".data]⟩ : Registry).known ∧
     (pySplit ':' "name:1234:extra".data).getD 0 [] ≠ "localhost".data) ∧
    (assert_valid_cluster ⟨["name".data]⟩ (some "name:1234:extra".data) = .ok () ∧
     get_scheduler_client ⟨false, false, fun _ => none⟩ "name:1234:extra".data =
       .error .valueError) :=
  ⟨⟨by decide, by decide, by decide⟩,
   multi_colon_cluster_accepted_but_unroutable ⟨["name".data]⟩
     ⟨false, false, fun _ => none⟩ "name:1234:extra".data
     (by decide) (by decide) (by decide)⟩

/-! ### C4: lazy session construction -/

theorem truthyOptStr_some (o : Option (List Char)) (h : truthyOptStr o = true) :
    ∃ s, o = some s ∧ s.isEmpty = false := by
  cases o with
  | none => simp [truthyOptStr] at h
  | some s => exact ⟨s, rfl, by simpa [truthyOptStr] using h⟩

theorem truthyOptStr_some_eq (s : List Char) :
    truthyOptStr (some s) = !s.isEmpty := rfl

theorem get_cluster_ok_nonempty (reg : Registry) (a b : Option (List Char))
    (c : List Char) (h : (get_cluster reg a b).2 = .ok c) :
    c.isEmpty = false := by
  simp only [get_cluster] at h
  cases hA : assert_valid_cluster reg (pyOr a b) with
  | error e =>
    rw [hA] at h
    simp only at h
    exact Except.noConfusion h
  | ok u =>
    rw [hA] at h
    simp only at h
    have ht : truthyOptStr (pyOr a b) = true := by
      cases htr : truthyOptStr (pyOr a b) with
      | true => rfl
      | false => simp [assert_valid_cluster, htr] at hA
    obtain ⟨s, hso, hse⟩ := truthyOptStr_some _ ht
    injection h with h2
    rw [hso] at h2
    simp only [Option.getD_some] at h2
    rw [← h2]
    exact hse

theorem construct_scheduler_ok (env : CLIEnv) (s : SessionState) (r : Resolved)
    (h : (resolveEnv env).2 = .ok r) :
    construct_scheduler env s = .ok (cachedState r (s.resolveCount + 1)) := by
  simp [construct_scheduler, h]

theorem resolveEnv_cluster_nonempty (env : CLIEnv) (r : Resolved)
    (h : (resolveEnv env).2 = .ok r) : r.cluster.isEmpty = false := by
  unfold resolveEnv at h
  cases hg : get_cluster env.registry env.optCluster env.configCluster with
  | mk logs res =>
    rw [hg] at h
    cases res with
    | error e => simp at h
    | ok c =>
      have hne : c.isEmpty = false :=
        get_cluster_ok_nonempty env.registry env.optCluster env.configCluster c
          (by rw [hg])
      simp only at h
      cases hr : get_scheduler_client env.router c with
      | error e =>
        rw [hr] at h
        simp only at h
        exact Except.noConfusion h
      | ok pr =>
        rcases pr with ⟨proxy, sched⟩
        rw [hr] at h
        simp only at h
        injection h with h2
        subst h2
        exact hne

theorem accessOnce_cached (env : CLIEnv) (r : Resolved) (n : Nat)
    (hproxy : truthyOptStr r.proxy = true) (hcl : r.cluster.isEmpty = false)
    (a : Accessor) :
    accessOnce env (cachedState r n) a = .ok (cachedState r n) := by
  cases a <;>
    simp [accessOnce, cachedState, hproxy, truthyOptStr_some_eq, hcl]

theorem accessOnce_init (env : CLIEnv) (r : Resolved)
    (h : (resolveEnv env).2 = .ok r) (a : Accessor) :
    accessOnce env initState a = .ok (cachedState r 1) := by
  cases a <;>
    simp [accessOnce, initState, truthyOptStr, construct_scheduler, h]

theorem runAccessors_cached (env : CLIEnv) (r : Resolved) (n : Nat)
    (hproxy : truthyOptStr r.proxy = true) (hcl : r.cluster.isEmpty = false)
    (l : List Accessor) :
    runAccessors env (cachedState r n) l = .ok (cachedState r n) := by
  induction l with
  | nil => rfl
  | cons a rest ih =>
    simp [runAccessors, accessOnce_cached env r n hproxy hcl a, ih]

/-- C4 counterexample: for the cluster `localhost:1234` the resolved tunnel
proxy is `None`, which is Python-falsy, so the access sequence
`client(); proxy()` runs `_construct_scheduler` (and hence cluster
resolution) twice, not exactly once as claimed — though the cached values
are unchanged. -/
theorem session_single_construction_counterexample :
    runAccessors
      ⟨some "localhost:1234".data, none, ⟨[]⟩, ⟨false, true, fun _ => none⟩⟩
      initState [Accessor.client, Accessor.proxy] =
    .ok (cachedState
      ⟨"localhost:1234".data, none, .localClient 1234 true,
        .fromScheduler (.localClient 1234 true)⟩ 2) := by
  rfl

/-- C4 amended: provided the resolved tunnel proxy is truthy (a tunnel host
was found), any non-empty access sequence over `client()`/`proxy()`/
`cluster()` runs the construction exactly once — on the first access — and
every later access leaves all cached values unchanged; when the resolved
proxy is `None`, each `proxy()` access re-runs the (deterministic)
construction, as the counterexample shows, with unchanged cached values. -/
theorem session_single_construction_amended (env : CLIEnv) (r : Resolved)
    (accs : List Accessor)
    (hres : (resolveEnv env).2 = .ok r)
    (hproxy : truthyOptStr r.proxy = true) :
    runAccessors env initState accs =
      .ok (if accs.isEmpty then initState else cachedState r 1) := by
  have hcl := resolveEnv_cluster_nonempty env r hres
  cases accs with
  | nil => rfl
  | cons a rest =>
    simp [runAccessors, accessOnce_init env r hres a,
      runAccessors_cached env r 1 hproxy hcl rest]

/-- C4 amended witness: a corp-side environment with a tunnel host resolves
once across a `client(); proxy(); cluster()` access sequence. -/
theorem session_single_construction_amended_witness :
    ((resolveEnv ⟨some "smf1".data, none, ⟨["smf1".data]⟩,
        ⟨false, true, fun _ => some "nest1".data⟩⟩).2 =
      .ok ⟨"smf1".data, some "nest1".data,
        .zookeeperClient "smf1".data 2181 false true,
        .fromScheduler (.zookeeperClient "smf1".data 2181 false true)⟩ ∧
     truthyOptStr (some "nest1".data) = true) ∧
    runAccessors ⟨some "smf1".data, none, ⟨["smf1".data]⟩,
        ⟨false, true, fun _ => some "nest1".data⟩⟩ initState
      [Accessor.client, Accessor.proxy, Accessor.cluster] =
      .ok (if ([Accessor.client, Accessor.proxy, Accessor.cluster] : List Accessor).isEmpty
           then initState
           else cachedState ⟨"smf1".data, some "nest1".data,
             .zookeeperClient "smf1".data 2181 false true,
             .fromScheduler (.zookeeperClient "smf1".data 2181 false true)⟩ 1) :=
  ⟨⟨rfl, rfl⟩,
   session_single_construction_amended
     ⟨some "smf1".data, none, ⟨["smf1".data]⟩,
       ⟨false, true, fun _ => some "nest1".data⟩⟩
     ⟨"smf1".data, some "nest1".data,
       .zookeeperClient "smf1".data 2181 false true,
       .fromScheduler (.zookeeperClient "smf1".data 2181 false true)⟩
     [Accessor.client, Accessor.proxy, Accessor.cluster] rfl rfl⟩

end MesosClient
